import Mathlib

/-!
Verification of the cybsi-sdk data-mapping layer.

The repository is a Python client for a threat-intelligence HTTP API.  Its
core is a set of mutable "form" builders that accumulate a JSON document
(`GenericObservationForm`), read-only "view" wrappers over received JSON
documents, and endpoint objects that build HTTP requests
(`RelationshipsAPI.forecast`).  This file embeds those parts shallowly:

* JSON documents are an inductive `Json` type; Python dicts are ordered
  association lists (`List (String × Json)`) with Python's dict semantics
  (assignment keeps the position of an existing key, `setdefault` appends
  at the end when the key is absent).
* Mutable builder methods become pure functions on the builder state; the
  terminal `json()` method, which Python runs on the mutable object, is
  embedded state-passing style as `state → result × state`.
* View properties become functions returning `Except String` where the
  Python code can raise, and `Option` where it returns `None`.

Definitions embedding code that is present in the repository follow that
code directly.  A few helpers of the repository (`JsonObjectForm.json`,
`JsonObjectView._get`, `_map_list_optional`, the RFC 3339 codec and the
kebab-case converter, and the closed vocabulary enums) live in modules not
included here; those carry a doc comment starting `Modelled from the
spec:` and follow the specification's description of them.
-/

namespace Cybsi

/-- A JSON value.  Objects keep their fields in insertion order, as Python
dicts (and therefore the serialized wire documents of this SDK) do. -/
inductive Json where
  | null : Json
  | bool (b : Bool) : Json
  | num (q : Rat) : Json
  | str (s : String) : Json
  | arr (elems : List Json) : Json
  | obj (entries : List (String × Json)) : Json

/-- Python `d[k]`/`d.get(k)` on an ordered dict: first entry with the key. -/
def dictGet : List (String × Json) → String → Option Json
  | [], _ => none
  | (k', v') :: rest, k => if k' = k then some v' else dictGet rest k

/-- Python `d[k] = v`: overwrite in place when the key exists (keeping its
position), append at the end otherwise. -/
def dictSet : List (String × Json) → String → Json → List (String × Json)
  | [], k, v => [(k, v)]
  | (k', v') :: rest, k, v =>
      if k' = k then (k, v) :: rest else (k', v') :: dictSet rest k v

/-- Python `x = d.setdefault(k, dflt)` followed by an in-place mutation of
`x` through `f`.  When the key exists the stored value is mutated in its
position; otherwise `(k, f dflt)` is appended at the end.  This is how the
form builders obtain and then mutate the nested `content` dict and its
fact lists. -/
def dictSetdefaultMod (d : List (String × Json)) (k : String) (dflt : Json)
    (f : Json → Json) : List (String × Json) :=
  match d with
  | [] => [(k, f dflt)]
  | (k', v') :: rest =>
      if k' = k then (k', f v') :: rest
      else (k', v') :: dictSetdefaultMod rest k dflt f

/-! ## Timestamps

`datetime.datetime` values: the legacy form serializes them with Python's
`isoformat`, the newer generation with the repository's `rfc3339_timestamp`
helper (not under the included sources; modelled from the spec). -/

/-- A Python `datetime.datetime`.  `tzOffsetMinutes = none` is a naive
datetime; `some off` is an aware datetime with a fixed UTC offset of `off`
minutes. -/
structure PyDatetime where
  year : Nat
  month : Nat
  day : Nat
  hour : Nat
  minute : Nat
  second : Nat
  microsecond : Nat
  tzOffsetMinutes : Option Int
deriving DecidableEq

/-- The decimal digit character for `n < 10`. -/
def digitChar : Nat → Char
  | 0 => '0'
  | 1 => '1'
  | 2 => '2'
  | 3 => '3'
  | 4 => '4'
  | 5 => '5'
  | 6 => '6'
  | 7 => '7'
  | 8 => '8'
  | 9 => '9'
  | _ => '*'

/-- Inverse of `digitChar` on decimal digit characters. -/
def charDigit (c : Char) : Option Nat :=
  if c = '0' then some 0
  else if c = '1' then some 1
  else if c = '2' then some 2
  else if c = '3' then some 3
  else if c = '4' then some 4
  else if c = '5' then some 5
  else if c = '6' then some 6
  else if c = '7' then some 7
  else if c = '8' then some 8
  else if c = '9' then some 9
  else none

/-- Two-digit zero-padded rendering, as `strftime`/`isoformat` use for
month, day, hour, minute, second and the offset components. -/
def twoDigits (n : Nat) : List Char := [digitChar (n / 10 % 10), digitChar (n % 10)]

/-- Four-digit zero-padded year. -/
def fourDigits (n : Nat) : List Char :=
  [digitChar (n / 1000 % 10), digitChar (n / 100 % 10),
   digitChar (n / 10 % 10), digitChar (n % 10)]

/-- Six-digit zero-padded microseconds, as `isoformat` prints when the
microsecond component is nonzero. -/
def sixDigits (n : Nat) : List Char :=
  [digitChar (n / 100000 % 10), digitChar (n / 10000 % 10),
   digitChar (n / 1000 % 10), digitChar (n / 100 % 10),
   digitChar (n / 10 % 10), digitChar (n % 10)]

/-- The `±HH:MM` rendering of a UTC offset given in minutes. -/
def offsetChars (off : Int) : List Char :=
  (if 0 ≤ off then '+' else '-')
    :: (twoDigits (off.natAbs / 60) ++ [':'] ++ twoDigits (off.natAbs % 60))

/-- Python's `datetime.isoformat()`: `YYYY-MM-DDTHH:MM:SS`, followed by
`.ffffff` only when the microsecond component is nonzero, followed by the
`±HH:MM` offset only when the datetime is aware.  A naive datetime
produces no offset designator at all.  This is what the legacy
`GenericObservationForm.__init__` stores under `seenAt`. -/
def pyIsoformat (t : PyDatetime) : String :=
  String.mk
    (fourDigits t.year ++ ['-'] ++ twoDigits t.month ++ ['-'] ++ twoDigits t.day
      ++ ['T'] ++ twoDigits t.hour ++ [':'] ++ twoDigits t.minute ++ [':']
      ++ twoDigits t.second
      ++ (if t.microsecond = 0 then [] else '.' :: sixDigits t.microsecond)
      ++ (match t.tzOffsetMinutes with
          | none => []
          | some off => offsetChars off))

/-- Modelled from the spec: `rfc3339_timestamp` (module `cybsi.api.internal`,
not under the included sources).  "Timestamp wire format: RFC3339 with
explicit numeric UTC offset, e.g. `2021-12-24T17:50:08+03:00`": seconds
precision and an explicit `±HH:MM` offset on every output; a naive input is
rendered with the zero offset. -/
def rfc3339_timestamp (t : PyDatetime) : String :=
  String.mk
    (fourDigits t.year ++ ['-'] ++ twoDigits t.month ++ ['-'] ++ twoDigits t.day
      ++ ['T'] ++ twoDigits t.hour ++ [':'] ++ twoDigits t.minute ++ [':']
      ++ twoDigits t.second ++ offsetChars (t.tzOffsetMinutes.getD 0))

/-- Decode two digit characters as a two-digit number. -/
def parseTwo (a b : Char) : Option Nat :=
  match charDigit a, charDigit b with
  | some x, some y => some (10 * x + y)
  | _, _ => none

/-- Decode four digit characters as a four-digit number. -/
def parseFour (a b c d : Char) : Option Nat :=
  match charDigit a, charDigit b, charDigit c, charDigit d with
  | some x, some y, some z, some w => some (1000 * x + 100 * y + 10 * z + w)
  | _, _, _, _ => none

/-- Modelled from the spec: `parse_rfc3339_timestamp` (module
`cybsi.api.internal`, not under the included sources).  Accepts the RFC 3339
profile with explicit numeric offset and "preserves the offset rather than
normalizing to UTC": the parsed datetime is aware, carrying exactly the
offset written in the string. -/
def parse_rfc3339_timestamp (s : String) : Option PyDatetime :=
  match s.data with
  | [y1, y2, y3, y4, '-', mo1, mo2, '-', d1, d2, 'T',
     h1, h2, ':', mi1, mi2, ':', s1, s2, sign, oh1, oh2, ':', om1, om2] =>
      match parseFour y1 y2 y3 y4, parseTwo mo1 mo2, parseTwo d1 d2,
            parseTwo h1 h2, parseTwo mi1 mi2, parseTwo s1 s2,
            parseTwo oh1 oh2, parseTwo om1 om2 with
      | some y, some mo, some d, some h, some mi, some sec, some oh, some om =>
          if sign = '+' then
            some ⟨y, mo, d, h, mi, sec, 0, some ((oh * 60 + om : Nat))⟩
          else if sign = '-' then
            some ⟨y, mo, d, h, mi, sec, 0, some (-((oh * 60 + om : Nat) : Int))⟩
          else none
      | _, _, _, _, _, _, _, _ => none
  | _ => none

/-- Whether a timestamp string ends in an explicit numeric UTC offset
designator `±HH:MM`. -/
def hasExplicitNumericOffset (s : String) : Bool :=
  match s.data.reverse with
  | m2 :: m1 :: c3 :: h2 :: h1 :: sign :: _ =>
      (c3 == ':') && (sign == '+' || sign == '-')
        && (charDigit m2).isSome && (charDigit m1).isSome
        && (charDigit h2).isSome && (charDigit h1).isSome
  | _ => false

/-! ## Closed vocabulary enums

The observable enums live in `cybsi/api/observable/enums.py`, which is not
among the included sources; they are modelled from the spec, including only
the members the spec and the included sources name. -/

/-- Modelled from the spec: the share-level enum ("share levels: `Green`,
etc."), the standard TLP vocabulary used by the examples. -/
inductive ShareLevels where
  | White | Green | Amber | Red
deriving DecidableEq

/-- The wire string of a share level (the Python enum member's `.value`). -/
def ShareLevels.value : ShareLevels → String
  | .White => "White" | .Green => "Green" | .Amber => "Amber" | .Red => "Red"

/-- Modelled from the spec: the attribute-name enum; the spec and examples
name `IsIoC` and `IsMalicious`. -/
inductive AttributeNames where
  | IsIoC | IsMalicious
deriving DecidableEq

/-- The wire string of an attribute name. -/
def AttributeNames.value : AttributeNames → String
  | .IsIoC => "IsIoC" | .IsMalicious => "IsMalicious"

/-- Modelled from the spec: the relationship-kind enum ("relationship
kinds: `ResolvesTo`, `Resolves`, etc."); the spec and the included sources
name exactly these two members. -/
inductive RelationshipKinds where
  | Resolves | ResolvesTo
deriving DecidableEq

/-- The wire string of a relationship kind. -/
def RelationshipKinds.value : RelationshipKinds → String
  | .Resolves => "Resolves" | .ResolvesTo => "ResolvesTo"

/-- Modelled from the spec: `convert_relationship_kind_kebab` (module
`cybsi.utils.converters`, not under the included sources).  "One conversion
utility maps a relationship-kind enum value to its kebab-case URL-path
segment (e.g., `ResolvesTo` → `resolves-to`)"; a pure, total function with
an explicit mapping for every member of the closed enum. -/
def convert_relationship_kind_kebab : RelationshipKinds → String
  | .Resolves => "resolves"
  | .ResolvesTo => "resolves-to"

/-- A non-empty, lowercase, hyphen-separated string: every character is a
lowercase letter or a hyphen, and no hyphen starts or ends the string. -/
def isKebab (s : String) : Bool :=
  (!s.data.isEmpty)
    && s.data.all (fun c => c.isLower || c = '-')
    && s.data.head? ≠ some '-' && s.data.getLast? ≠ some '-'

/-! ## The generic observation form (`cybsi/api/observation/generic.py`) -/

/-- The `entity` / `source` / `target` argument of the `add_*` methods:
either an already-registered entity's UUID or a filled `EntityForm` (whose
serialized document we carry as is; the claims under study do not depend on
the entity form's internal structure). -/
inductive EntityArg where
  | uuid (u : String) : EntityArg
  | form (document : Json) : EntityArg

/-- The `isinstance(e, uuid.UUID)` dispatch of the `add_*` methods:
`{"uuid": str(e)}` for a UUID, `e.json()` for an entity form. -/
def EntityArg.encode : EntityArg → Json
  | .uuid u => Json.obj [("uuid", Json.str u)]
  | .form document => document

/-- A `None` confidence is stored as is and serializes as JSON `null`; a
number is stored as that number. -/
def confidenceJson : Option Rat → Json
  | none => Json.null
  | some c => Json.num c

/-- The state of a `GenericObservationForm`: its `_data` dict. -/
structure GenericObservationForm where
  _data : List (String × Json)

/-- Embeds `GenericObservationForm.__init__`: stores `shareLevel` and `seenAt`
(and nothing else — in particular no `content` key). -/
def GenericObservationForm.init (share_level : ShareLevels)
    (seen_at : PyDatetime) : GenericObservationForm :=
  ⟨[("shareLevel", Json.str share_level.value),
    ("seenAt", Json.str (rfc3339_timestamp seen_at))]⟩

/-- The shared shape of both `add_*` methods:
`self._content.setdefault(listKey, []).append(record)`, where `_content`
is `self._data.setdefault("content", {})`.  The two mismatch fallbacks
(a non-dict under `content`, a non-list under the list key) keep the value
unchanged; they are unreachable on forms built through this API, where
`content` is always a dict holding lists. -/
def appendContentFact (d : List (String × Json)) (listKey : String)
    (record : Json) : List (String × Json) :=
  dictSetdefaultMod d "content" (Json.obj []) (fun c =>
    match c with
    | Json.obj centries =>
        Json.obj (dictSetdefaultMod centries listKey (Json.arr []) (fun l =>
          match l with
          | Json.arr xs => Json.arr (xs ++ [record])
          | other => other))
    | other => other)

/-- The record appended by `add_attribute_fact`. -/
def attributeFactRecord (entity : EntityArg) (attribute_name : AttributeNames)
    (value : Json) (confidence : Option Rat) : Json :=
  Json.obj
    [("entity", entity.encode),
     ("attributeName", Json.str attribute_name.value),
     ("value", value),
     ("confidence", confidenceJson confidence)]

/-- The record appended by `add_entity_relationship`. -/
def relationshipFactRecord (source : EntityArg) (kind : RelationshipKinds)
    (target : EntityArg) (confidence : Option Rat) : Json :=
  Json.obj
    [("source", source.encode),
     ("kind", Json.str kind.value),
     ("target", target.encode),
     ("confidence", confidenceJson confidence)]

/-- Embeds `GenericObservationForm.add_attribute_fact` (the method also returns
`self`; here the updated state is the return value). -/
def GenericObservationForm.add_attribute_fact (f : GenericObservationForm)
    (entity : EntityArg) (attribute_name : AttributeNames) (value : Json)
    (confidence : Option Rat) : GenericObservationForm :=
  ⟨appendContentFact f._data "entityAttributeValues"
      (attributeFactRecord entity attribute_name value confidence)⟩

/-- Embeds `GenericObservationForm.add_entity_relationship`. -/
def GenericObservationForm.add_entity_relationship (f : GenericObservationForm)
    (source : EntityArg) (kind : RelationshipKinds) (target : EntityArg)
    (confidence : Option Rat) : GenericObservationForm :=
  ⟨appendContentFact f._data "entityRelationships"
      (relationshipFactRecord source kind target confidence)⟩

/-- Embeds `GenericObservationForm.set_data_source`. -/
def GenericObservationForm.set_data_source (f : GenericObservationForm)
    (source_uuid : String) : GenericObservationForm :=
  ⟨dictSet f._data "dataSourceUUID" (Json.str source_uuid)⟩

/-- Modelled from the spec: `JsonObjectForm.json` (module
`cybsi.api.internal`, not under the included sources), the "terminal
operation: produce an immutable JSON-compatible document snapshot for
transmission", run on the mutable form; embedded state-passing style as
the produced document together with the form state after the call. -/
def GenericObservationForm.json (f : GenericObservationForm) :
    Json × GenericObservationForm :=
  (Json.obj f._data, f)

/-- One builder call on a `GenericObservationForm`, for reasoning about
arbitrary call sequences. -/
inductive FormOp where
  | addAttributeFact (entity : EntityArg) (attribute_name : AttributeNames)
      (value : Json) (confidence : Option Rat) : FormOp
  | addEntityRelationship (source : EntityArg) (kind : RelationshipKinds)
      (target : EntityArg) (confidence : Option Rat) : FormOp
  | setDataSource (source_uuid : String) : FormOp

/-- Apply one builder call. -/
def applyOp (f : GenericObservationForm) : FormOp → GenericObservationForm
  | .addAttributeFact e n v c => f.add_attribute_fact e n v c
  | .addEntityRelationship s k t c => f.add_entity_relationship s k t c
  | .setDataSource u => f.set_data_source u

/-- Apply a sequence of builder calls, first call first. -/
def applyOps (f : GenericObservationForm) (ops : List FormOp) :
    GenericObservationForm :=
  ops.foldl applyOp f

/-- The records contributed to `entityAttributeValues` by a call sequence,
in call order. -/
def attrRecords : List FormOp → List Json
  | [] => []
  | .addAttributeFact e n v c :: rest => attributeFactRecord e n v c :: attrRecords rest
  | _ :: rest => attrRecords rest

/-- The records contributed to `entityRelationships` by a call sequence,
in call order. -/
def relRecords : List FormOp → List Json
  | [] => []
  | .addEntityRelationship s k t c :: rest =>
      relationshipFactRecord s k t c :: relRecords rest
  | _ :: rest => relRecords rest

/-- The fact list stored under `content`/`listKey` of a form's data
(empty when either key is absent). -/
def contentList (d : List (String × Json)) (listKey : String) : List Json :=
  match dictGet d "content" with
  | some (Json.obj centries) =>
      match dictGet centries listKey with
      | some (Json.arr xs) => xs
      | _ => []
  | _ => []

/-- First half of well-formedness of a form's data: the `content` entry,
when present, is an object.  Every form reachable through the API
satisfies it. -/
def ObjWF (d : List (String × Json)) : Prop :=
  ∀ c, dictGet d "content" = some c → ∃ centries, c = Json.obj centries

/-- Second half of well-formedness: the entry under `k` of the `content`
object, when present, is a list. -/
def KeyWF (d : List (String × Json)) (k : String) : Prop :=
  ∀ centries x, dictGet d "content" = some (Json.obj centries) →
    dictGet centries k = some x → ∃ xs, x = Json.arr xs

/-! ## Views -/

/-- A read-only view over a received JSON document. -/
structure JsonObjectView where
  raw : Json

/-- Modelled from the spec: `JsonObjectView._get` (module
`cybsi.api.internal`, not under the included sources).  "Missing required
keys fail with a `MissingField` error identifying the field name"; the
present value is returned as stored. -/
def JsonObjectView._get (v : JsonObjectView) (key : String) : Except String Json :=
  match v.raw with
  | Json.obj entries =>
      match dictGet entries key with
      | some x => Except.ok x
      | none => Except.error ("MissingField: " ++ key)
  | _ => Except.error ("MissingField: " ++ key)

/-- The `GenericObservationView` of the newer generation. -/
structure GenericObservationView where
  raw : Json

/-- Embeds `GenericObservationView.seen_at`:
`parse_rfc3339_timestamp(self._get("seenAt"))`.  The outer `Except` is the
`MissingField`/type failure of `_get`, the inner `Option` the parse
result. -/
def GenericObservationView.seen_at (v : GenericObservationView) :
    Except String (Option PyDatetime) :=
  match JsonObjectView._get ⟨v.raw⟩ "seenAt" with
  | Except.ok (Json.str s) => Except.ok (parse_rfc3339_timestamp s)
  | Except.ok _ => Except.error "seenAt: not a string"
  | Except.error e => Except.error e

/-- Embeds `GenericObservationView.registered_at`:
`parse_rfc3339_timestamp(self._get("registeredAt"))`. -/
def GenericObservationView.registered_at (v : GenericObservationView) :
    Except String (Option PyDatetime) :=
  match JsonObjectView._get ⟨v.raw⟩ "registeredAt" with
  | Except.ok (Json.str s) => Except.ok (parse_rfc3339_timestamp s)
  | Except.ok _ => Except.error "registeredAt: not a string"
  | Except.error e => Except.error e

/-- A `RelationshipView` of the newer generation (held as raw document;
its accessors are not needed by the claims under study). -/
structure RelationshipView where
  raw : Json

/-- An `AttributeValueView` of the newer generation. -/
structure AttributeValueView where
  raw : Json

/-- The `GenericObservationContentView` of the newer generation. -/
structure GenericObservationContentView where
  raw : Json

/-- Embeds `GenericObservationContentView.entity_relationships`:
`[RelationshipView(x) for x in self._get("entityRelationships")]`.
A missing key fails through `_get`; a non-list value fails the list
comprehension. -/
def GenericObservationContentView.entity_relationships
    (v : GenericObservationContentView) : Except String (List RelationshipView) :=
  match JsonObjectView._get ⟨v.raw⟩ "entityRelationships" with
  | Except.ok (Json.arr xs) => Except.ok (xs.map RelationshipView.mk)
  | Except.ok _ => Except.error "entityRelationships: not a list"
  | Except.error e => Except.error e

/-- Embeds `GenericObservationContentView.entity_attribute_values`:
`[AttributeValueView(x) for x in self._get("entityAttributeValues")]`. -/
def GenericObservationContentView.entity_attribute_values
    (v : GenericObservationContentView) : Except String (List AttributeValueView) :=
  match JsonObjectView._get ⟨v.raw⟩ "entityAttributeValues" with
  | Except.ok (Json.arr xs) => Except.ok (xs.map AttributeValueView.mk)
  | Except.ok _ => Except.error "entityAttributeValues: not a list"
  | Except.error e => Except.error e

/-- The legacy `_ContentView` (`cybsi_sdk/client/observations/generic.py`),
a `dict` subclass; its state is the content dict itself. -/
structure LegacyContentView where
  entries : List (String × Json)

/-- A legacy `_RelationshipView` element wrapper. -/
structure LegacyRelationshipView where
  raw : Json

/-- A legacy `_AttributeValueView` element wrapper. -/
structure LegacyAttributeValueView where
  raw : Json

/-- Legacy `_ContentView.entity_relationships`:
`[_RelationshipView(x) for x in self.get("entityRelationships", [])]`.
A missing key falls back to the empty list; `none` is the `TypeError` a
present non-list value raises in the comprehension. -/
def LegacyContentView.entity_relationships (v : LegacyContentView) :
    Option (List LegacyRelationshipView) :=
  match (dictGet v.entries "entityRelationships").getD (Json.arr []) with
  | Json.arr xs => some (xs.map LegacyRelationshipView.mk)
  | _ => none

/-- Legacy `_ContentView.entity_attribute_values`:
`[_AttributeValueView(x) for x in self.get("entityAttributeValues", [])]`. -/
def LegacyContentView.entity_attribute_values (v : LegacyContentView) :
    Option (List LegacyAttributeValueView) :=
  match (dictGet v.entries "entityAttributeValues").getD (Json.arr []) with
  | Json.arr xs => some (xs.map LegacyAttributeValueView.mk)
  | _ => none

/-- A `ValuableFactView` element wrapper. -/
structure ValuableFactView where
  raw : Json

/-- Modelled from the spec: `JsonObjectView._map_list_optional` (module
`cybsi.api.internal`, not under the included sources).  "Optional fields
(e.g., `valuableFacts`) return an explicit 'absent' value (not an error)
when the key is missing or null, and decode each list element through the
same element-view wrapper when present, preserving list order." -/
def mapListOptional (raw : Json) (key : String) (wrap : Json → α) :
    Except String (Option (List α)) :=
  match raw with
  | Json.obj entries =>
      match dictGet entries key with
      | none => Except.ok none
      | some Json.null => Except.ok none
      | some (Json.arr xs) => Except.ok (some (xs.map wrap))
      | some _ => Except.error (key ++ ": not a list")
  | _ => Except.error (key ++ ": not an object")

/-- The `RelationshipsForecastView` of `cybsi/api/observable/relationships.py`. -/
structure RelationshipsForecastView where
  raw : Json

/-- Embeds `RelationshipsForecastView.relationship`:
`RelationshipView(self._get("relationship"))`. -/
def RelationshipsForecastView.relationship (v : RelationshipsForecastView) :
    Except String RelationshipView :=
  (JsonObjectView._get ⟨v.raw⟩ "relationship").map RelationshipView.mk

/-- Embeds `RelationshipsForecastView.valuable_facts`:
`self._map_list_optional("valuableFacts", ValuableFactView)`. -/
def RelationshipsForecastView.valuable_facts (v : RelationshipsForecastView) :
    Except String (Option (List ValuableFactView)) :=
  mapListOptional v.raw "valuableFacts" ValuableFactView.mk

/-! ## The relationships endpoint (`cybsi/api/observable/relationships.py`) -/

/-- One HTTP request as handed to the connector. -/
structure HttpRequest where
  method : String
  path : String
  params : List (String × Json)

/-- Embeds `RelationshipsAPI._path`. -/
def RelationshipsAPI.path : String := "/observable/relationships"

/-- The request built by `RelationshipsAPI.forecast`: the kebab-cased kind
between the two entity UUIDs on the path, and each query parameter included
only when the corresponding argument was supplied. -/
def RelationshipsAPI.forecastRequest (source_entity_uuid : String)
    (target_entity_uuid : String) (kind : RelationshipKinds)
    (forecast_at : Option PyDatetime) (valuable_facts : Option Bool) :
    HttpRequest :=
  let kebab_kind := convert_relationship_kind_kebab kind
  let path := RelationshipsAPI.path ++ "/" ++ source_entity_uuid ++ "/"
      ++ kebab_kind ++ "/" ++ target_entity_uuid
  let params : List (String × Json) := []
  let params := match forecast_at with
    | some d => dictSet params "forecastAt" (Json.str (rfc3339_timestamp d))
    | none => params
  let params := match valuable_facts with
    | some b => dictSet params "valuableFacts" (Json.bool b)
    | none => params
  ⟨"GET", path, params⟩

/-- Embeds `RelationshipsAPI.forecast`: issues the single GET built by
`forecastRequest` against the connector and wraps the response document in
a `RelationshipsForecastView`. -/
def RelationshipsAPI.forecast (source_entity_uuid : String)
    (target_entity_uuid : String) (kind : RelationshipKinds)
    (forecast_at : Option PyDatetime) (valuable_facts : Option Bool)
    (do_get : HttpRequest → Json) : RelationshipsForecastView :=
  RelationshipsForecastView.mk
    (do_get (RelationshipsAPI.forecastRequest source_entity_uuid
      target_entity_uuid kind forecast_at valuable_facts))

/-- The legacy `GenericObservationForm.__init__`
(`cybsi_sdk/client/observations/generic.py`): stores the share level and
`seen_at.isoformat()`. -/
def LegacyGenericObservationForm.init (share_level : ShareLevels)
    (seen_at : PyDatetime) : GenericObservationForm :=
  ⟨[("shareLevel", Json.str share_level.value),
    ("seenAt", Json.str (pyIsoformat seen_at))]⟩

/-! ## Helper lemmas: dict semantics -/

theorem dictGet_dictSet_self (d : List (String × Json)) (k : String) (v : Json) :
    dictGet (dictSet d k v) k = some v := by
  induction d with
  | nil => simp [dictSet, dictGet]
  | cons hd tl ih =>
      obtain ⟨k', v'⟩ := hd
      by_cases h : k' = k
      · simp [dictSet, dictGet, h]
      · simp [dictSet, dictGet, h, ih]

theorem dictGet_dictSet_ne (d : List (String × Json)) (k k' : String) (v : Json)
    (h : k' ≠ k) : dictGet (dictSet d k v) k' = dictGet d k' := by
  have h' : k ≠ k' := Ne.symm h
  induction d with
  | nil => simp [dictSet, dictGet, h']
  | cons hd tl ih =>
      obtain ⟨k₀, v₀⟩ := hd
      by_cases h₀ : k₀ = k
      · subst h₀
        simp [dictSet, dictGet, h']
      · simp [dictSet, dictGet, h₀, ih]

theorem dictGet_dictSetdefaultMod_self (d : List (String × Json)) (k : String)
    (dflt : Json) (f : Json → Json) :
    dictGet (dictSetdefaultMod d k dflt f) k
      = some (f ((dictGet d k).getD dflt)) := by
  induction d with
  | nil => simp [dictSetdefaultMod, dictGet]
  | cons hd tl ih =>
      obtain ⟨k', v'⟩ := hd
      by_cases h : k' = k
      · simp [dictSetdefaultMod, dictGet, h]
      · simp [dictSetdefaultMod, dictGet, h, ih]

theorem dictGet_dictSetdefaultMod_ne (d : List (String × Json)) (k k' : String)
    (dflt : Json) (f : Json → Json) (h : k' ≠ k) :
    dictGet (dictSetdefaultMod d k dflt f) k' = dictGet d k' := by
  have h' : k ≠ k' := Ne.symm h
  induction d with
  | nil => simp [dictSetdefaultMod, dictGet, h']
  | cons hd tl ih =>
      obtain ⟨k₀, v₀⟩ := hd
      by_cases h₀ : k₀ = k
      · subst h₀
        simp [dictSetdefaultMod, dictGet, h']
      · simp [dictSetdefaultMod, dictGet, h₀, ih]

/-! ## Helper lemmas: the content-appending step of the `add_*` methods -/

theorem dictGet_appendContentFact_ne (d : List (String × Json)) (listKey : String)
    (record : Json) (k : String) (h : k ≠ "content") :
    dictGet (appendContentFact d listKey record) k = dictGet d k := by
  unfold appendContentFact
  exact dictGet_dictSetdefaultMod_ne _ _ _ _ _ h

theorem contentList_appendContentFact_self (d : List (String × Json))
    (listKey : String) (record : Json) (hobj : ObjWF d) (hkey : KeyWF d listKey) :
    contentList (appendContentFact d listKey record) listKey
      = contentList d listKey ++ [record] := by
  unfold appendContentFact contentList
  rw [dictGet_dictSetdefaultMod_self]
  rcases hc : dictGet d "content" with _ | c
  · simp [dictGet_dictSetdefaultMod_self, dictGet]
  · obtain ⟨centries, rfl⟩ := hobj c hc
    simp only [Option.getD_some]
    rw [dictGet_dictSetdefaultMod_self]
    rcases hx : dictGet centries listKey with _ | x
    · simp
    · obtain ⟨xs, rfl⟩ := hkey centries x hc hx
      simp

theorem contentList_appendContentFact_ne (d : List (String × Json))
    (listKey : String) (record : Json) (k : String) (hobj : ObjWF d)
    (h : k ≠ listKey) :
    contentList (appendContentFact d listKey record) k = contentList d k := by
  have h' : listKey ≠ k := Ne.symm h
  unfold appendContentFact contentList
  rw [dictGet_dictSetdefaultMod_self]
  rcases hc : dictGet d "content" with _ | c
  · simp [dictGet, h']
  · obtain ⟨centries, rfl⟩ := hobj c hc
    simp only [Option.getD_some]
    rw [dictGet_dictSetdefaultMod_ne _ _ _ _ _ h]

theorem objWF_appendContentFact (d : List (String × Json)) (listKey : String)
    (record : Json) (hobj : ObjWF d) :
    ObjWF (appendContentFact d listKey record) := by
  intro c hc
  unfold appendContentFact at hc
  rw [dictGet_dictSetdefaultMod_self] at hc
  simp only [Option.some.injEq] at hc
  rcases hd : dictGet d "content" with _ | c₀
  · rw [hd] at hc
    simp only [Option.getD_none] at hc
    exact ⟨_, hc.symm⟩
  · obtain ⟨centries, rfl⟩ := hobj c₀ hd
    rw [hd] at hc
    simp only [Option.getD_some] at hc
    exact ⟨_, hc.symm⟩

theorem keyWF_appendContentFact (d : List (String × Json)) (listKey : String)
    (record : Json) (k : String) (hobj : ObjWF d) (hkey : KeyWF d k)
    (hkeyL : KeyWF d listKey) :
    KeyWF (appendContentFact d listKey record) k := by
  intro centries x hc hx
  unfold appendContentFact at hc
  rw [dictGet_dictSetdefaultMod_self] at hc
  by_cases hkk : k = listKey
  · subst hkk
    rcases hd : dictGet d "content" with _ | c₀
    · rw [hd] at hc
      simp only [Option.getD_none, Option.some.injEq, Json.obj.injEq] at hc
      rw [← hc] at hx
      rw [dictGet_dictSetdefaultMod_self] at hx
      simp only [dictGet, Option.getD_none, Option.some.injEq] at hx
      exact ⟨[record], hx.symm⟩
    · obtain ⟨c₀e, rfl⟩ := hobj c₀ hd
      rw [hd] at hc
      simp only [Option.getD_some, Option.some.injEq, Json.obj.injEq] at hc
      rw [← hc] at hx
      rw [dictGet_dictSetdefaultMod_self] at hx
      rcases hx0 : dictGet c₀e k with _ | x₀
      · rw [hx0] at hx
        simp only [Option.getD_none, Option.some.injEq] at hx
        exact ⟨[record], hx.symm⟩
      · obtain ⟨xs, rfl⟩ := hkeyL c₀e x₀ hd hx0
        rw [hx0] at hx
        simp only [Option.getD_some, Option.some.injEq] at hx
        exact ⟨xs ++ [record], hx.symm⟩
  · rcases hd : dictGet d "content" with _ | c₀
    · rw [hd] at hc
      simp only [Option.getD_none, Option.some.injEq, Json.obj.injEq] at hc
      rw [← hc] at hx
      rw [dictGet_dictSetdefaultMod_ne _ _ _ _ _ hkk] at hx
      simp [dictGet] at hx
    · obtain ⟨c₀e, rfl⟩ := hobj c₀ hd
      rw [hd] at hc
      simp only [Option.getD_some, Option.some.injEq, Json.obj.injEq] at hc
      rw [← hc] at hx
      rw [dictGet_dictSetdefaultMod_ne _ _ _ _ _ hkk] at hx
      exact hkey c₀e x hd hx

/-! ## Helper lemmas: builder call sequences -/

/-- The `set_data_source` call touches only the `dataSourceUUID` entry. -/
theorem dictGet_setDataSource_ne (d : List (String × Json)) (u : String)
    (k : String) (h : k ≠ "dataSourceUUID") :
    dictGet (dictSet d "dataSourceUUID" (Json.str u)) k = dictGet d k :=
  dictGet_dictSet_ne _ _ _ _ h

theorem applyOps_invariant (ops : List FormOp) :
    ∀ d : List (String × Json), ObjWF d →
      KeyWF d "entityAttributeValues" → KeyWF d "entityRelationships" →
      contentList (applyOps ⟨d⟩ ops)._data "entityAttributeValues"
          = contentList d "entityAttributeValues" ++ attrRecords ops
        ∧ contentList (applyOps ⟨d⟩ ops)._data "entityRelationships"
          = contentList d "entityRelationships" ++ relRecords ops
        ∧ (∀ k, k ≠ "content" → k ≠ "dataSourceUUID" →
            dictGet (applyOps ⟨d⟩ ops)._data k = dictGet d k)
        ∧ ObjWF (applyOps ⟨d⟩ ops)._data
        ∧ KeyWF (applyOps ⟨d⟩ ops)._data "entityAttributeValues"
        ∧ KeyWF (applyOps ⟨d⟩ ops)._data "entityRelationships" := by
  induction ops with
  | nil =>
      intro d hobj ha hr
      exact ⟨by simp [applyOps, attrRecords], by simp [applyOps, relRecords],
        fun k _ _ => by simp [applyOps],
        by simpa [applyOps] using hobj, by simpa [applyOps] using ha,
        by simpa [applyOps] using hr⟩
  | cons op rest ih =>
      intro d hobj ha hr
      have hstep : applyOps ⟨d⟩ (op :: rest) = applyOps (applyOp ⟨d⟩ op) rest := rfl
      rcases op with ⟨e, n, v, c⟩ | ⟨s, kk, tgt, c⟩ | u
      · -- add_attribute_fact
        have hd' : applyOp ⟨d⟩ (FormOp.addAttributeFact e n v c)
            = (⟨appendContentFact d "entityAttributeValues"
                (attributeFactRecord e n v c)⟩ : GenericObservationForm) := rfl
        have hobj' := objWF_appendContentFact d "entityAttributeValues"
          (attributeFactRecord e n v c) hobj
        have ha' := keyWF_appendContentFact d "entityAttributeValues"
          (attributeFactRecord e n v c) "entityAttributeValues" hobj ha ha
        have hr' := keyWF_appendContentFact d "entityAttributeValues"
          (attributeFactRecord e n v c) "entityRelationships" hobj hr ha
        obtain ⟨i1, i2, i3, i4, i5, i6⟩ :=
          ih (appendContentFact d "entityAttributeValues"
            (attributeFactRecord e n v c)) hobj' ha' hr'
        refine ⟨?_, ?_, ?_, ?_, ?_, ?_⟩
        · rw [hstep, hd', i1,
            contentList_appendContentFact_self d _ _ hobj ha]
          simp [attrRecords]
        · rw [hstep, hd', i2,
            contentList_appendContentFact_ne d _ _ _ hobj (by decide)]
          simp [relRecords]
        · intro k hk1 hk2
          rw [hstep, hd', i3 k hk1 hk2, dictGet_appendContentFact_ne d _ _ _ hk1]
        · rw [hstep, hd']; exact i4
        · rw [hstep, hd']; exact i5
        · rw [hstep, hd']; exact i6
      · -- add_entity_relationship
        have hd' : applyOp ⟨d⟩ (FormOp.addEntityRelationship s kk tgt c)
            = (⟨appendContentFact d "entityRelationships"
                (relationshipFactRecord s kk tgt c)⟩ : GenericObservationForm) := rfl
        have hobj' := objWF_appendContentFact d "entityRelationships"
          (relationshipFactRecord s kk tgt c) hobj
        have ha' := keyWF_appendContentFact d "entityRelationships"
          (relationshipFactRecord s kk tgt c) "entityAttributeValues" hobj ha hr
        have hr' := keyWF_appendContentFact d "entityRelationships"
          (relationshipFactRecord s kk tgt c) "entityRelationships" hobj hr hr
        obtain ⟨i1, i2, i3, i4, i5, i6⟩ :=
          ih (appendContentFact d "entityRelationships"
            (relationshipFactRecord s kk tgt c)) hobj' ha' hr'
        refine ⟨?_, ?_, ?_, ?_, ?_, ?_⟩
        · rw [hstep, hd', i1,
            contentList_appendContentFact_ne d _ _ _ hobj (by decide)]
          simp [attrRecords]
        · rw [hstep, hd', i2,
            contentList_appendContentFact_self d _ _ hobj hr]
          simp [relRecords]
        · intro k hk1 hk2
          rw [hstep, hd', i3 k hk1 hk2, dictGet_appendContentFact_ne d _ _ _ hk1]
        · rw [hstep, hd']; exact i4
        · rw [hstep, hd']; exact i5
        · rw [hstep, hd']; exact i6
      · -- set_data_source
        have hd' : applyOp ⟨d⟩ (FormOp.setDataSource u)
            = (⟨dictSet d "dataSourceUUID" (Json.str u)⟩ : GenericObservationForm) := rfl
        have hcontent : dictGet (dictSet d "dataSourceUUID" (Json.str u)) "content"
            = dictGet d "content" := dictGet_dictSet_ne _ _ _ _ (by decide)
        have hobj' : ObjWF (dictSet d "dataSourceUUID" (Json.str u)) := by
          intro c hc
          rw [hcontent] at hc
          exact hobj c hc
        have ha' : KeyWF (dictSet d "dataSourceUUID" (Json.str u))
            "entityAttributeValues" := by
          intro centries x hc hx
          rw [hcontent] at hc
          exact ha centries x hc hx
        have hr' : KeyWF (dictSet d "dataSourceUUID" (Json.str u))
            "entityRelationships" := by
          intro centries x hc hx
          rw [hcontent] at hc
          exact hr centries x hc hx
        have hcl : ∀ k, contentList (dictSet d "dataSourceUUID" (Json.str u)) k
            = contentList d k := by
          intro k
          unfold contentList
          rw [hcontent]
        obtain ⟨i1, i2, i3, i4, i5, i6⟩ :=
          ih (dictSet d "dataSourceUUID" (Json.str u)) hobj' ha' hr'
        refine ⟨?_, ?_, ?_, ?_, ?_, ?_⟩
        · rw [hstep, hd', i1, hcl]
          simp [attrRecords]
        · rw [hstep, hd', i2, hcl]
          simp [relRecords]
        · intro k hk1 hk2
          rw [hstep, hd', i3 k hk1 hk2, dictGet_setDataSource_ne d _ _ hk2]
        · rw [hstep, hd']; exact i4
        · rw [hstep, hd']; exact i5
        · rw [hstep, hd']; exact i6

/-- The initial data of the newer-generation form. -/
theorem init_data (sl : ShareLevels) (t : PyDatetime) :
    (GenericObservationForm.init sl t)._data
      = [("shareLevel", Json.str sl.value),
         ("seenAt", Json.str (rfc3339_timestamp t))] := rfl

theorem init_content_absent (sl : ShareLevels) (t : PyDatetime) :
    dictGet (GenericObservationForm.init sl t)._data "content" = none := by
  simp [init_data, dictGet]

theorem init_objWF (sl : ShareLevels) (t : PyDatetime) :
    ObjWF (GenericObservationForm.init sl t)._data := by
  intro c hc
  rw [init_content_absent] at hc
  exact absurd hc (by simp)

theorem init_keyWF (sl : ShareLevels) (t : PyDatetime) (k : String) :
    KeyWF (GenericObservationForm.init sl t)._data k := by
  intro centries x hc
  rw [init_content_absent] at hc
  exact absurd hc (by simp)

theorem init_contentList (sl : ShareLevels) (t : PyDatetime) (k : String) :
    contentList (GenericObservationForm.init sl t)._data k = [] := by
  unfold contentList
  rw [init_content_absent]

/-! ## Helper lemmas: timestamp digits -/

theorem charDigit_digitChar (n : Nat) (h : n < 10) :
    charDigit (digitChar n) = some n := by
  interval_cases n <;> rfl

theorem parseTwo_digits (n : Nat) (h : n < 100) :
    parseTwo (digitChar (n / 10 % 10)) (digitChar (n % 10)) = some n := by
  have h1 : n / 10 % 10 < 10 := Nat.mod_lt _ (by norm_num)
  have h2 : n % 10 < 10 := Nat.mod_lt _ (by norm_num)
  rw [parseTwo, charDigit_digitChar _ h1, charDigit_digitChar _ h2]
  simp only [Option.some.injEq]
  omega

theorem parseFour_digits (n : Nat) (h : n < 10000) :
    parseFour (digitChar (n / 1000 % 10)) (digitChar (n / 100 % 10))
      (digitChar (n / 10 % 10)) (digitChar (n % 10)) = some n := by
  have h1 : n / 1000 % 10 < 10 := Nat.mod_lt _ (by norm_num)
  have h2 : n / 100 % 10 < 10 := Nat.mod_lt _ (by norm_num)
  have h3 : n / 10 % 10 < 10 := Nat.mod_lt _ (by norm_num)
  have h4 : n % 10 < 10 := Nat.mod_lt _ (by norm_num)
  rw [parseFour, charDigit_digitChar _ h1, charDigit_digitChar _ h2,
    charDigit_digitChar _ h3, charDigit_digitChar _ h4]
  simp only [Option.some.injEq]
  omega

theorem charDigit_digitChar_isSome (n : Nat) (h : n < 10) :
    (charDigit (digitChar n)).isSome = true := by
  rw [charDigit_digitChar _ h]
  rfl

/-- The char list underlying the RFC 3339 rendering, fully concatenated. -/
theorem rfc3339_data (t : PyDatetime) :
    (rfc3339_timestamp t).data
      = [digitChar (t.year / 1000 % 10), digitChar (t.year / 100 % 10),
         digitChar (t.year / 10 % 10), digitChar (t.year % 10), '-',
         digitChar (t.month / 10 % 10), digitChar (t.month % 10), '-',
         digitChar (t.day / 10 % 10), digitChar (t.day % 10), 'T',
         digitChar (t.hour / 10 % 10), digitChar (t.hour % 10), ':',
         digitChar (t.minute / 10 % 10), digitChar (t.minute % 10), ':',
         digitChar (t.second / 10 % 10), digitChar (t.second % 10),
         (if 0 ≤ t.tzOffsetMinutes.getD 0 then '+' else '-'),
         digitChar ((t.tzOffsetMinutes.getD 0).natAbs / 60 / 10 % 10),
         digitChar ((t.tzOffsetMinutes.getD 0).natAbs / 60 % 10), ':',
         digitChar ((t.tzOffsetMinutes.getD 0).natAbs % 60 / 10 % 10),
         digitChar ((t.tzOffsetMinutes.getD 0).natAbs % 60 % 10)] := by
  simp [rfc3339_timestamp, fourDigits, twoDigits, offsetChars, String.mk]

/-- Every `rfc3339_timestamp` output carries an explicit numeric offset
designator. -/
theorem rfc3339_hasExplicitNumericOffset (t : PyDatetime) :
    hasExplicitNumericOffset (rfc3339_timestamp t) = true := by
  rw [hasExplicitNumericOffset, rfc3339_data]
  simp only [List.reverse_cons, List.reverse_nil, List.nil_append,
    List.cons_append, List.append_assoc]
  by_cases hs : (0 : Int) ≤ t.tzOffsetMinutes.getD 0 <;>
    simp [hs, charDigit_digitChar_isSome _ (Nat.mod_lt _ (by norm_num))]

/-- Round trip of the modelled RFC 3339 codec: parsing an encoded aware
timestamp recovers it exactly, in particular preserving the UTC offset. -/
theorem parse_rfc3339_roundtrip (t : PyDatetime) (off : Int)
    (hy : t.year < 10000) (hmo : t.month < 100) (hd : t.day < 100)
    (hh : t.hour < 100) (hmi : t.minute < 100) (hs : t.second < 100)
    (hmicro : t.microsecond = 0) (htz : t.tzOffsetMinutes = some off)
    (hoff : off.natAbs < 6000) :
    parse_rfc3339_timestamp (rfc3339_timestamp t) = some t := by
  obtain ⟨y, mo, d, h, mi, sec, micro, tz⟩ := t
  simp only at hy hmo hd hh hmi hs hmicro htz
  subst hmicro
  subst htz
  rw [parse_rfc3339_timestamp, rfc3339_data]
  simp only [Option.getD_some]
  have hoh : off.natAbs / 60 < 100 := by omega
  have hom : off.natAbs % 60 < 100 := by omega
  by_cases hsign : (0 : Int) ≤ off
  · simp only [hsign, if_true]
    rw [parseFour_digits _ hy, parseTwo_digits _ hmo, parseTwo_digits _ hd,
      parseTwo_digits _ hh, parseTwo_digits _ hmi, parseTwo_digits _ hs,
      parseTwo_digits _ hoh, parseTwo_digits _ hom]
    simp only [if_pos rfl, Option.some.injEq, PyDatetime.mk.injEq, true_and]
    omega
  · simp only [hsign, if_false]
    rw [parseFour_digits _ hy, parseTwo_digits _ hmo, parseTwo_digits _ hd,
      parseTwo_digits _ hh, parseTwo_digits _ hmi, parseTwo_digits _ hs,
      parseTwo_digits _ hoh, parseTwo_digits _ hom]
    have hne : ('-' = '+') = False := by simp
    simp only [hne, if_false, if_true, Option.some.injEq, PyDatetime.mk.injEq,
      true_and]
    have hdm : off.natAbs / 60 * 60 + off.natAbs % 60 = off.natAbs :=
      Nat.div_add_mod' _ _
    omega

/-- A digit character is never a colon. -/
theorem digitChar_beq_colon (n : Nat) : (digitChar n == ':') = false := by
  unfold digitChar
  split <;> rfl

/-- A colon is neither a plus nor a minus sign. -/
theorem colon_not_sign : ((':' == '+') || (':' == '-')) = false := rfl

/-- The `isoformat` encoding of a naive datetime carries no explicit numeric offset
designator: the string ends in the seconds (or microseconds) digits with a
colon (or a digit) where the sign would have to be. -/
theorem pyIsoformat_naive_no_offset (t : PyDatetime)
    (h : t.tzOffsetMinutes = none) :
    hasExplicitNumericOffset (pyIsoformat t) = false := by
  obtain ⟨y, mo, d, hr, mi, sec, micro, tz⟩ := t
  simp only at h
  subst h
  by_cases hm : micro = 0
  · subst hm
    rw [hasExplicitNumericOffset, pyIsoformat]
    simp only [fourDigits, twoDigits, sixDigits, if_pos rfl, String.mk]
    simp only [List.cons_append, List.nil_append, List.append_nil,
      List.reverse_cons, List.reverse_nil, List.append_assoc]
    simp [colon_not_sign]
  · rw [hasExplicitNumericOffset, pyIsoformat]
    simp only [fourDigits, twoDigits, sixDigits, if_neg hm, String.mk]
    simp only [List.cons_append, List.nil_append, List.append_nil,
      List.reverse_cons, List.reverse_nil, List.append_assoc]
    simp [digitChar_beq_colon]

/-- The map `attrRecords` distributes over concatenated call sequences. -/
theorem attrRecords_append (l1 l2 : List FormOp) :
    attrRecords (l1 ++ l2) = attrRecords l1 ++ attrRecords l2 := by
  induction l1 with
  | nil => simp [attrRecords]
  | cons op rest ih =>
      rcases op with ⟨e, n, v, c⟩ | ⟨s, k, t, c⟩ | u <;>
        simp [attrRecords, ih]

/-- The map `relRecords` distributes over concatenated call sequences. -/
theorem relRecords_append (l1 l2 : List FormOp) :
    relRecords (l1 ++ l2) = relRecords l1 ++ relRecords l2 := by
  induction l1 with
  | nil => simp [relRecords]
  | cons op rest ih =>
      rcases op with ⟨e, n, v, c⟩ | ⟨s, k, t, c⟩ | u <;>
        simp [relRecords, ih]

/-! ## Claim theorems -/

/-- C1 (counterexample): a `GenericObservationForm` built with share level
`Green` and seen-at time 2021-12-24T17:50:08+03:00, with no `add_*` or
`set_data_source` call, serializes to a document holding only `shareLevel`
and `seenAt`; the `content` key is missing entirely, not mapped to an empty
object. -/
theorem zeroFactForm_serializes_without_content_key :
    ((GenericObservationForm.init ShareLevels.Green
        ⟨2021, 12, 24, 17, 50, 8, 0, some 180⟩).json).1
      = Json.obj [("shareLevel", Json.str "Green"),
                  ("seenAt", Json.str "2021-12-24T17:50:08+03:00")]
    ∧ dictGet [("shareLevel", Json.str "Green"),
               ("seenAt", Json.str "2021-12-24T17:50:08+03:00")] "content"
      = none := by
  constructor
  · rfl
  · rfl

/-- C1 (amended): the terminal serialization of a form on which no
`add_attribute_fact`, `add_entity_relationship` or `set_data_source` call
was made is the document holding exactly the construction-time `shareLevel`
and `seenAt` entries, with no `content` key at all (the `content`
sub-document is created lazily by the first `add_*` call). -/
theorem zeroFactForm_content_key_missing (sl : ShareLevels) (t : PyDatetime) :
    ((GenericObservationForm.init sl t).json).1
      = Json.obj [("shareLevel", Json.str sl.value),
                  ("seenAt", Json.str (rfc3339_timestamp t))]
    ∧ dictGet (GenericObservationForm.init sl t)._data "content" = none :=
  ⟨rfl, init_content_absent sl t⟩

/-- C2: after any sequence of builder calls on a freshly constructed
`GenericObservationForm`, the serialized snapshot is the form's document,
whose `entityAttributeValues` list holds exactly the attribute-fact records
in `add_attribute_fact` call order and whose `entityRelationships` list
holds exactly the relationship records in `add_entity_relationship` call
order, with no reordering. -/
theorem serialization_preserves_call_order (sl : ShareLevels) (t : PyDatetime)
    (ops : List FormOp) :
    ((applyOps (GenericObservationForm.init sl t) ops).json).1
      = Json.obj (applyOps (GenericObservationForm.init sl t) ops)._data
    ∧ contentList (applyOps (GenericObservationForm.init sl t) ops)._data
        "entityAttributeValues" = attrRecords ops
    ∧ contentList (applyOps (GenericObservationForm.init sl t) ops)._data
        "entityRelationships" = relRecords ops := by
  obtain ⟨i1, i2, -, -, -, -⟩ := applyOps_invariant ops
    (GenericObservationForm.init sl t)._data (init_objWF sl t)
    (init_keyWF sl t _) (init_keyWF sl t _)
  refine ⟨rfl, ?_, ?_⟩
  · rw [show applyOps (GenericObservationForm.init sl t) ops
        = applyOps ⟨(GenericObservationForm.init sl t)._data⟩ ops from rfl, i1,
      init_contentList]
    simp
  · rw [show applyOps (GenericObservationForm.init sl t) ops
        = applyOps ⟨(GenericObservationForm.init sl t)._data⟩ ops from rfl, i2,
      init_contentList]
    simp

/-- C3: serializing twice without mutating in between yields the same
document and leaves the form state unchanged (no one-time consume), and a
serialization performed after further builder calls is the document of the
mutated form, listing all records of the extended call sequence. -/
theorem serialization_idempotent_and_live (sl : ShareLevels) (t : PyDatetime)
    (ops extra : List FormOp) :
    ((applyOps (GenericObservationForm.init sl t) ops).json).1
      = ((((applyOps (GenericObservationForm.init sl t) ops).json).2).json).1
    ∧ ((applyOps (GenericObservationForm.init sl t) ops).json).2
      = applyOps (GenericObservationForm.init sl t) ops
    ∧ ((applyOps (((applyOps (GenericObservationForm.init sl t) ops).json).2)
          extra).json).1
      = Json.obj (applyOps (GenericObservationForm.init sl t) (ops ++ extra))._data
    ∧ contentList
        (applyOps (GenericObservationForm.init sl t) (ops ++ extra))._data
        "entityAttributeValues" = attrRecords (ops ++ extra)
    ∧ contentList
        (applyOps (GenericObservationForm.init sl t) (ops ++ extra))._data
        "entityRelationships" = relRecords (ops ++ extra) := by
  obtain ⟨i1, i2, -, -, -, -⟩ := applyOps_invariant (ops ++ extra)
    (GenericObservationForm.init sl t)._data (init_objWF sl t)
    (init_keyWF sl t _) (init_keyWF sl t _)
  refine ⟨rfl, rfl, ?_, ?_, ?_⟩
  · show Json.obj (applyOps (applyOps (GenericObservationForm.init sl t) ops)
        extra)._data = _
    rw [show applyOps (applyOps (GenericObservationForm.init sl t) ops) extra
        = applyOps (GenericObservationForm.init sl t) (ops ++ extra) from
      (List.foldl_append _ _ _ _).symm]
  · rw [show applyOps (GenericObservationForm.init sl t) (ops ++ extra)
        = applyOps ⟨(GenericObservationForm.init sl t)._data⟩ (ops ++ extra)
        from rfl, i1, init_contentList]
    simp
  · rw [show applyOps (GenericObservationForm.init sl t) (ops ++ extra)
        = applyOps ⟨(GenericObservationForm.init sl t)._data⟩ (ops ++ extra)
        from rfl, i2, init_contentList]
    simp

/-- C4 (counterexample): at the naive timestamp 2021-12-24 17:50:08 (no
tzinfo), the legacy form's `seenAt` encoding (`datetime.isoformat()`)
produces `2021-12-24T17:50:08`, which carries no explicit numeric offset,
while the newer generation's `rfc3339_timestamp` encoding of the same value
does; the two generations do not share a single explicit-offset RFC 3339
profile. -/
theorem legacy_seenAt_lacks_offset_on_naive_datetime :
    dictGet (LegacyGenericObservationForm.init ShareLevels.Green
        ⟨2021, 12, 24, 17, 50, 8, 0, none⟩)._data "seenAt"
      = some (Json.str "2021-12-24T17:50:08")
    ∧ hasExplicitNumericOffset "2021-12-24T17:50:08" = false
    ∧ hasExplicitNumericOffset (rfc3339_timestamp
        ⟨2021, 12, 24, 17, 50, 8, 0, none⟩) = true := by
  refine ⟨rfl, rfl, rfl⟩

/-- C4 (amended): the newer generation uses a single RFC 3339 profile with
explicit numeric offset: every `rfc3339_timestamp` encoding ends in an
explicit `±HH:MM` designator, decoding an encoded aware timestamp recovers
it exactly — preserving the offset rather than normalizing to UTC — and
`GenericObservationView.seen_at` surfaces exactly that decoding; the
legacy form's `seenAt` encoding, by contrast, is `datetime.isoformat()`,
which omits the offset designator entirely for naive datetimes. -/
theorem timestamp_profile_new_generation_roundtrips (t : PyDatetime) (off : Int)
    (entries : List (String × Json))
    (hy : t.year < 10000) (hmo : t.month < 100) (hd : t.day < 100)
    (hh : t.hour < 100) (hmi : t.minute < 100) (hs : t.second < 100)
    (hmicro : t.microsecond = 0) (htz : t.tzOffsetMinutes = some off)
    (hoff : off.natAbs < 6000)
    (hseen : dictGet entries "seenAt" = some (Json.str (rfc3339_timestamp t))) :
    hasExplicitNumericOffset (rfc3339_timestamp t) = true
    ∧ parse_rfc3339_timestamp (rfc3339_timestamp t) = some t
    ∧ (parse_rfc3339_timestamp (rfc3339_timestamp t)).bind
        PyDatetime.tzOffsetMinutes = some off
    ∧ GenericObservationView.seen_at ⟨Json.obj entries⟩ = Except.ok (some t)
    ∧ (∀ u : PyDatetime, u.tzOffsetMinutes = none →
        hasExplicitNumericOffset (pyIsoformat u) = false) := by
  have hrt := parse_rfc3339_roundtrip t off hy hmo hd hh hmi hs hmicro htz hoff
  refine ⟨rfc3339_hasExplicitNumericOffset t, hrt, ?_, ?_, ?_⟩
  · rw [hrt]
    simp [Option.bind, htz]
  · simp only [GenericObservationView.seen_at, JsonObjectView._get]
    rw [hseen]
    simp [hrt]
  · intro u hu
    exact pyIsoformat_naive_no_offset u hu

/-- C4 witness. -/
theorem timestamp_profile_witness :
    parse_rfc3339_timestamp (rfc3339_timestamp
      ⟨2021, 12, 24, 17, 50, 8, 0, some 180⟩)
      = some ⟨2021, 12, 24, 17, 50, 8, 0, some 180⟩
    ∧ GenericObservationView.seen_at
        ⟨Json.obj [("seenAt", Json.str (rfc3339_timestamp
          ⟨2021, 12, 24, 17, 50, 8, 0, some 180⟩))]⟩
      = Except.ok (some ⟨2021, 12, 24, 17, 50, 8, 0, some 180⟩) := by
  obtain ⟨-, h2, -, h4, -⟩ := timestamp_profile_new_generation_roundtrips
    ⟨2021, 12, 24, 17, 50, 8, 0, some 180⟩ 180
    [("seenAt", Json.str (rfc3339_timestamp
      ⟨2021, 12, 24, 17, 50, 8, 0, some 180⟩))]
    (by decide) (by decide) (by decide) (by decide) (by decide) (by decide)
    (by decide) (by decide) (by decide) (by rfl)
  exact ⟨h2, h4⟩

/-- C8: a call of `add_attribute_fact` or `add_entity_relationship` with
`confidence=None` appends a record whose `confidence` key is explicitly
present and mapped to JSON `null`; the key is never omitted from the
record. -/
theorem omitted_confidence_serializes_as_null (sl : ShareLevels)
    (t : PyDatetime) (ops : List FormOp) (e : EntityArg) (n : AttributeNames)
    (v : Json) (src : EntityArg) (kk : RelationshipKinds) (tgt : EntityArg) :
    attributeFactRecord e n v none
      = Json.obj [("entity", e.encode), ("attributeName", Json.str n.value),
                  ("value", v), ("confidence", Json.null)]
    ∧ dictGet [("entity", e.encode), ("attributeName", Json.str n.value),
               ("value", v), ("confidence", Json.null)] "confidence"
      = some Json.null
    ∧ relationshipFactRecord src kk tgt none
      = Json.obj [("source", src.encode), ("kind", Json.str kk.value),
                  ("target", tgt.encode), ("confidence", Json.null)]
    ∧ dictGet [("source", src.encode), ("kind", Json.str kk.value),
               ("target", tgt.encode), ("confidence", Json.null)] "confidence"
      = some Json.null
    ∧ contentList (applyOps (GenericObservationForm.init sl t)
          (ops ++ [FormOp.addAttributeFact e n v none]))._data
        "entityAttributeValues"
      = attrRecords ops ++ [attributeFactRecord e n v none]
    ∧ contentList (applyOps (GenericObservationForm.init sl t)
          (ops ++ [FormOp.addEntityRelationship src kk tgt none]))._data
        "entityRelationships"
      = relRecords ops ++ [relationshipFactRecord src kk tgt none] := by
  refine ⟨rfl, rfl, rfl, rfl, ?_, ?_⟩
  · obtain ⟨i1, -, -, -, -, -⟩ := applyOps_invariant
      (ops ++ [FormOp.addAttributeFact e n v none])
      (GenericObservationForm.init sl t)._data (init_objWF sl t)
      (init_keyWF sl t _) (init_keyWF sl t _)
    rw [show applyOps (GenericObservationForm.init sl t)
          (ops ++ [FormOp.addAttributeFact e n v none])
        = applyOps ⟨(GenericObservationForm.init sl t)._data⟩
          (ops ++ [FormOp.addAttributeFact e n v none]) from rfl, i1,
      init_contentList, attrRecords_append]
    simp [attrRecords]
  · obtain ⟨-, i2, -, -, -, -⟩ := applyOps_invariant
      (ops ++ [FormOp.addEntityRelationship src kk tgt none])
      (GenericObservationForm.init sl t)._data (init_objWF sl t)
      (init_keyWF sl t _) (init_keyWF sl t _)
    rw [show applyOps (GenericObservationForm.init sl t)
          (ops ++ [FormOp.addEntityRelationship src kk tgt none])
        = applyOps ⟨(GenericObservationForm.init sl t)._data⟩
          (ops ++ [FormOp.addEntityRelationship src kk tgt none]) from rfl, i2,
      init_contentList, relRecords_append]
    simp [relRecords]

/-- C9: `shareLevel` and `seenAt` are set at construction and survive any
sequence of builder calls unchanged; moreover `add_attribute_fact` and
`add_entity_relationship` touch no top-level entry but `content`, and
`set_data_source` touches no entry but `dataSourceUUID`. -/
theorem construction_fields_frame (sl : ShareLevels) (t : PyDatetime)
    (ops : List FormOp) (f : GenericObservationForm) (e : EntityArg)
    (n : AttributeNames) (v : Json) (src : EntityArg) (kk : RelationshipKinds)
    (tgt : EntityArg) (c : Option Rat) (u : String) :
    dictGet (applyOps (GenericObservationForm.init sl t) ops)._data "shareLevel"
      = some (Json.str sl.value)
    ∧ dictGet (applyOps (GenericObservationForm.init sl t) ops)._data "seenAt"
      = some (Json.str (rfc3339_timestamp t))
    ∧ (∀ k, k ≠ "content" →
        dictGet (f.add_attribute_fact e n v c)._data k = dictGet f._data k)
    ∧ (∀ k, k ≠ "content" →
        dictGet (f.add_entity_relationship src kk tgt c)._data k
          = dictGet f._data k)
    ∧ (∀ k, k ≠ "dataSourceUUID" →
        dictGet (f.set_data_source u)._data k = dictGet f._data k) := by
  obtain ⟨-, -, i3, -, -, -⟩ := applyOps_invariant ops
    (GenericObservationForm.init sl t)._data (init_objWF sl t)
    (init_keyWF sl t _) (init_keyWF sl t _)
  refine ⟨?_, ?_, ?_, ?_, ?_⟩
  · rw [show applyOps (GenericObservationForm.init sl t) ops
        = applyOps ⟨(GenericObservationForm.init sl t)._data⟩ ops from rfl,
      i3 "shareLevel" (by decide) (by decide), init_data]
    simp [dictGet]
  · rw [show applyOps (GenericObservationForm.init sl t) ops
        = applyOps ⟨(GenericObservationForm.init sl t)._data⟩ ops from rfl,
      i3 "seenAt" (by decide) (by decide), init_data]
    simp [dictGet]
  · intro k hkc
    exact dictGet_appendContentFact_ne f._data _ _ k hkc
  · intro k hkc
    exact dictGet_appendContentFact_ne f._data _ _ k hkc
  · intro k hku
    exact dictGet_dictSet_ne f._data _ k _ hku

/-- C9 witness. -/
theorem construction_fields_frame_witness :
    dictGet (applyOps (GenericObservationForm.init ShareLevels.Green
        ⟨2021, 12, 24, 17, 50, 8, 0, some 180⟩)
        [FormOp.setDataSource "3a53cc35"])._data "shareLevel"
      = some (Json.str "Green")
    ∧ dictGet ((⟨[]⟩ : GenericObservationForm).add_attribute_fact
          (EntityArg.uuid "3a53cc35") AttributeNames.IsIoC Json.null none)._data
        "dataSourceUUID" = dictGet ([] : List (String × Json)) "dataSourceUUID"
    ∧ dictGet ((⟨[]⟩ : GenericObservationForm).set_data_source "3a53cc35")._data
        "content" = dictGet ([] : List (String × Json)) "content" := by
  obtain ⟨h1, -, h3, -, h5⟩ := construction_fields_frame ShareLevels.Green
    ⟨2021, 12, 24, 17, 50, 8, 0, some 180⟩ [FormOp.setDataSource "3a53cc35"]
    ⟨[]⟩ (EntityArg.uuid "3a53cc35") AttributeNames.IsIoC Json.null
    (EntityArg.uuid "3a53cc35") RelationshipKinds.Resolves
    (EntityArg.uuid "3a53cc35") none "3a53cc35"
  exact ⟨h1, h3 "dataSourceUUID" (by decide), h5 "content" (by decide)⟩

/-- C5: `RelationshipsAPI.forecast` builds a single GET request whose path
is `/observable/relationships/{source}/{kebab kind}/{target}`, includes
`forecastAt` (an RFC 3339 timestamp) exactly when `forecast_at` is
supplied and `valuableFacts` exactly when `valuable_facts` is supplied,
carries no other query parameter, and wraps the connector's response JSON
in a `RelationshipsForecastView`. -/
theorem forecast_request_shape (U V : String) (kind : RelationshipKinds)
    (fAt : Option PyDatetime) (vf : Option Bool) (do_get : HttpRequest → Json)
    (k : String) (hk1 : k ≠ "forecastAt") (hk2 : k ≠ "valuableFacts") :
    (RelationshipsAPI.forecastRequest U V kind fAt vf).method = "GET"
    ∧ (RelationshipsAPI.forecastRequest U V kind fAt vf).path
      = "/observable/relationships/" ++ U ++ "/"
        ++ convert_relationship_kind_kebab kind ++ "/" ++ V
    ∧ dictGet (RelationshipsAPI.forecastRequest U V kind fAt vf).params
        "forecastAt"
      = Option.map (fun d => Json.str (rfc3339_timestamp d)) fAt
    ∧ dictGet (RelationshipsAPI.forecastRequest U V kind fAt vf).params
        "valuableFacts" = Option.map Json.bool vf
    ∧ dictGet (RelationshipsAPI.forecastRequest U V kind fAt vf).params k = none
    ∧ RelationshipsAPI.forecast U V kind fAt vf do_get
      = ⟨do_get (RelationshipsAPI.forecastRequest U V kind fAt vf)⟩ := by
  have hk1' := Ne.symm hk1
  have hk2' := Ne.symm hk2
  rcases fAt with _ | d <;> rcases vf with _ | b <;>
    refine ⟨rfl, rfl, rfl, rfl, ?_, rfl⟩ <;>
    simp [RelationshipsAPI.forecastRequest, dictSet, dictGet, hk1', hk2']

/-- C5 witness. -/
theorem forecast_request_shape_witness :
    (RelationshipsAPI.forecastRequest "3a53cc35" "40a13d3f"
        RelationshipKinds.ResolvesTo none none).path
      = "/observable/relationships/3a53cc35/resolves-to/40a13d3f"
    ∧ dictGet (RelationshipsAPI.forecastRequest "3a53cc35" "40a13d3f"
        RelationshipKinds.ResolvesTo none none).params "other" = none := by
  obtain ⟨-, h2, -, -, h5, -⟩ := forecast_request_shape "3a53cc35" "40a13d3f"
    RelationshipKinds.ResolvesTo none none (fun _ => Json.null) "other"
    (by decide) (by decide)
  exact ⟨h2, h5⟩

/-- C6: `valuable_facts` over a document whose `valuableFacts` key is
missing or null returns the explicit absent value (`none`, not an error
and not an empty list); over `valuableFacts: []` it returns the present
empty sequence `some []`; the two are distinguishable, and a present list
is decoded element by element through `ValuableFactView` preserving
order. -/
theorem valuable_facts_absent_vs_empty (entries : List (String × Json))
    (xs : List Json) :
    (dictGet entries "valuableFacts" = none →
      (RelationshipsForecastView.mk (Json.obj entries)).valuable_facts
        = Except.ok none)
    ∧ (dictGet entries "valuableFacts" = some Json.null →
      (RelationshipsForecastView.mk (Json.obj entries)).valuable_facts
        = Except.ok none)
    ∧ (∀ entries2 : List (String × Json),
        dictGet entries2 "valuableFacts" = some (Json.arr xs) →
        (RelationshipsForecastView.mk (Json.obj entries2)).valuable_facts
          = Except.ok (some (xs.map ValuableFactView.mk)))
    ∧ (Except.ok (some ([] : List ValuableFactView))
        ≠ (Except.ok none : Except String (Option (List ValuableFactView)))) := by
  refine ⟨?_, ?_, ?_, by simp⟩
  · intro h
    simp only [RelationshipsForecastView.valuable_facts, mapListOptional]
    rw [h]
  · intro h
    simp only [RelationshipsForecastView.valuable_facts, mapListOptional]
    rw [h]
  · intro entries2 h
    simp only [RelationshipsForecastView.valuable_facts, mapListOptional]
    rw [h]

/-- C6 witness. -/
theorem valuable_facts_absent_vs_empty_witness :
    (RelationshipsForecastView.mk (Json.obj [("confidence", Json.num 1)])).valuable_facts
      = Except.ok none
    ∧ (RelationshipsForecastView.mk
        (Json.obj [("valuableFacts", Json.null)])).valuable_facts = Except.ok none
    ∧ (RelationshipsForecastView.mk
        (Json.obj [("valuableFacts", Json.arr [])])).valuable_facts
      = Except.ok (some []) := by
  obtain ⟨h1, -, -, -⟩ := valuable_facts_absent_vs_empty
    [("confidence", Json.num 1)] []
  obtain ⟨-, h2, h3, -⟩ := valuable_facts_absent_vs_empty
    [("valuableFacts", Json.null)] []
  exact ⟨h1 rfl, h2 rfl, by simpa using h3 [("valuableFacts", Json.arr [])] rfl⟩

/-- C7: the kebab-case conversion is a total Lean function over the closed
relationship-kind enum, it is injective, and every image is a non-empty,
lowercase, hyphen-separated string. -/
theorem kebab_conversion_total_injective :
    Function.Injective convert_relationship_kind_kebab
    ∧ ∀ k, isKebab (convert_relationship_kind_kebab k) = true := by
  constructor
  · intro a b hab
    cases a <;> cases b <;> first | rfl | exact absurd hab (by decide)
  · intro k
    cases k <;> decide

/-- C10: on a content document lacking the fact keys, the legacy
`_ContentView` accessors fall back to the empty list, while the newer
`GenericObservationContentView` accessors fail with a `MissingField`
error; the two generations differ on this input. -/
theorem legacy_vs_new_missing_content_keys (entries : List (String × Json))
    (hrel : dictGet entries "entityRelationships" = none)
    (hattr : dictGet entries "entityAttributeValues" = none) :
    LegacyContentView.entity_relationships ⟨entries⟩ = some []
    ∧ LegacyContentView.entity_attribute_values ⟨entries⟩ = some []
    ∧ GenericObservationContentView.entity_relationships ⟨Json.obj entries⟩
      = Except.error "MissingField: entityRelationships"
    ∧ GenericObservationContentView.entity_attribute_values ⟨Json.obj entries⟩
      = Except.error "MissingField: entityAttributeValues" := by
  refine ⟨?_, ?_, ?_, ?_⟩
  · simp only [LegacyContentView.entity_relationships]
    rw [hrel]
    rfl
  · simp only [LegacyContentView.entity_attribute_values]
    rw [hattr]
    rfl
  · simp only [GenericObservationContentView.entity_relationships,
      JsonObjectView._get]
    rw [hrel]
    rfl
  · simp only [GenericObservationContentView.entity_attribute_values,
      JsonObjectView._get]
    rw [hattr]
    rfl

/-- C10 witness. -/
theorem legacy_vs_new_missing_content_keys_witness :
    LegacyContentView.entity_relationships ⟨[]⟩ = some []
    ∧ GenericObservationContentView.entity_relationships ⟨Json.obj []⟩
      = Except.error "MissingField: entityRelationships" := by
  obtain ⟨h1, -, h3, -⟩ := legacy_vs_new_missing_content_keys [] rfl rfl
  exact ⟨h1, h3⟩

end Cybsi
